import Mathlib

/-!
# Verification of the tiktocker per-device backup pipeline

A shallow embedding of the Go sources of the tiktocker repository
(Mikrotik configuration backup to S3 or a local directory), together with
proofs about the pipeline's change detection, stage sequencing, request
construction and checksum computation.

Bytes are modelled as `Nat`, byte strings as `List Nat`.  Go's
`crypto/sha256` plus `encoding/base64` (used by `common.ComputeSha256`)
are embedded as an executable SHA-256 over byte lists followed by
standard base64 encoding.
-/

namespace Tiktocker

/-! ## SHA-256 (crypto/sha256) over byte lists -/

/-- The modulus of 32-bit machine words. -/
def pow32 : Nat := 4294967296

/-- Right rotation of a 32-bit word by `n` bits. -/
def rotr32 (n x : Nat) : Nat := ((x >>> n) ||| (x <<< (32 - n))) % pow32

/-- The SHA-256 big sigma-0 function. -/
def bigSigma0 (x : Nat) : Nat := rotr32 2 x ^^^ rotr32 13 x ^^^ rotr32 22 x

/-- The SHA-256 big sigma-1 function. -/
def bigSigma1 (x : Nat) : Nat := rotr32 6 x ^^^ rotr32 11 x ^^^ rotr32 25 x

/-- The SHA-256 small sigma-0 function. -/
def smallSigma0 (x : Nat) : Nat := rotr32 7 x ^^^ rotr32 18 x ^^^ (x >>> 3)

/-- The SHA-256 small sigma-1 function. -/
def smallSigma1 (x : Nat) : Nat := rotr32 17 x ^^^ rotr32 19 x ^^^ (x >>> 10)

/-- The SHA-256 choice function. -/
def chFn (x y z : Nat) : Nat := (x &&& y) ^^^ ((x ^^^ 4294967295) &&& z)

/-- The SHA-256 majority function. -/
def majFn (x y z : Nat) : Nat := (x &&& y) ^^^ (x &&& z) ^^^ (y &&& z)

/-- The 64 SHA-256 round constants. -/
def k256 : List Nat :=
  [1116352408, 1899447441, 3049323471, 3921009573,
   961987163, 1508970993, 2453635748, 2870763221,
   3624381080, 310598401, 607225278, 1426881987,
   1925078388, 2162078206, 2614888103, 3248222580,
   3835390401, 4022224774, 264347078, 604807628,
   770255983, 1249150122, 1555081692, 1996064986,
   2554220882, 2821834349, 2952996808, 3210313671,
   3336571891, 3584528711, 113926993, 338241895,
   666307205, 773529912, 1294757372, 1396182291,
   1695183700, 1986661051, 2177026350, 2456956037,
   2730485921, 2820302411, 3259730800, 3345764771,
   3516065817, 3600352804, 4094571909, 275423344,
   430227734, 506948616, 659060556, 883997877,
   958139571, 1322822218, 1537002063, 1747873779,
   1955562222, 2024104815, 2227730452, 2361852424,
   2428436474, 2756734187, 3204031479, 3329325298]

/-- The eight 32-bit words of SHA-256 working state. -/
structure Hash8 where
  a : Nat
  b : Nat
  c : Nat
  d : Nat
  e : Nat
  f : Nat
  g : Nat
  h : Nat

/-- The SHA-256 initial hash value. -/
def h0 : Hash8 :=
  { a := 1779033703, b := 3144134277, c := 1013904242, d := 2773480762,
    e := 1359893119, f := 2600822924, g := 528734635, h := 1541459225 }

/-- One SHA-256 compression round, consuming one schedule word and constant. -/
def sha256Round (s : Hash8) (wk : Nat × Nat) : Hash8 :=
  let t1 := (s.h + bigSigma1 s.e + chFn s.e s.f s.g + wk.2 + wk.1) % pow32
  let t2 := (bigSigma0 s.a + majFn s.a s.b s.c) % pow32
  { a := (t1 + t2) % pow32, b := s.a, c := s.b, d := s.c,
    e := (s.d + t1) % pow32, f := s.e, g := s.f, h := s.g }

/-- Extend the reversed message schedule by `n` further words (newest first). -/
def extendW (acc : List Nat) : Nat → List Nat
  | 0 => acc
  | n + 1 =>
      extendW
        ((smallSigma1 (acc.getD 1 0) + acc.getD 6 0 +
          smallSigma0 (acc.getD 14 0) + acc.getD 15 0) % pow32 :: acc) n

/-- Split a byte list into consecutive chunks of `n` bytes; `fuel` bounds the
recursion and is taken to be the list length at call sites. -/
def chunksBy (n : Nat) : Nat → List Nat → List (List Nat)
  | 0, _ => []
  | _, [] => []
  | fuel + 1, x :: xs => (x :: xs).take n :: chunksBy n fuel ((x :: xs).drop n)

/-- A big-endian 32-bit word from (up to) four bytes. -/
def word4 (l : List Nat) : Nat := l.foldl (fun acc b => acc * 256 + b) 0

/-- The `k` big-endian bytes of `n`. -/
def toBytesBE (n : Nat) : Nat → List Nat
  | 0 => []
  | k + 1 => toBytesBE (n / 256) k ++ [n % 256]

/-- SHA-256 compression of one 64-byte block into the running state. -/
def compressBlock (st : Hash8) (block : List Nat) : Hash8 :=
  let w16 := (chunksBy 4 block.length block).map word4
  let w := (extendW w16.reverse 48).reverse
  let sEnd := (w.zip k256).foldl sha256Round st
  { a := (st.a + sEnd.a) % pow32, b := (st.b + sEnd.b) % pow32,
    c := (st.c + sEnd.c) % pow32, d := (st.d + sEnd.d) % pow32,
    e := (st.e + sEnd.e) % pow32, f := (st.f + sEnd.f) % pow32,
    g := (st.g + sEnd.g) % pow32, h := (st.h + sEnd.h) % pow32 }

/-- SHA-256 padding: append 0x80, zeros, and the 8-byte big-endian bit length. -/
def sha256Pad (msg : List Nat) : List Nat :=
  msg ++ 128 :: List.replicate ((64 - ((msg.length + 9) % 64)) % 64) 0 ++
    toBytesBE (msg.length * 8) 8

/-- The 32 digest bytes of SHA-256 applied to a byte list. -/
def sha256Bytes (msg : List Nat) : List Nat :=
  let padded := sha256Pad msg
  let s := (chunksBy 64 padded.length padded).foldl compressBlock h0
  toBytesBE s.a 4 ++ toBytesBE s.b 4 ++ toBytesBE s.c 4 ++ toBytesBE s.d 4 ++
    toBytesBE s.e 4 ++ toBytesBE s.f 4 ++ toBytesBE s.g 4 ++ toBytesBE s.h 4

/-! ## Base64 (encoding/base64, StdEncoding) -/

/-- The standard base64 alphabet. -/
def base64Chars : List Char :=
  "ABCDEFGHIJKLMNOPQRSTUVWXYZabcdefghijklmnopqrstuvwxyz0123456789+/".data

/-- The base64 character of a 6-bit value. -/
def b64c (i : Nat) : Char := base64Chars.getD i 'A'

/-- Standard base64 encoding of a byte list, with padding. -/
def base64Encode : List Nat → List Char
  | [] => []
  | [b1] => [b64c (b1 >>> 2), b64c ((b1 &&& 3) <<< 4), '=', '=']
  | [b1, b2] =>
      [b64c (b1 >>> 2), b64c (((b1 &&& 3) <<< 4) ||| (b2 >>> 4)),
       b64c ((b2 &&& 15) <<< 2), '=']
  | b1 :: b2 :: b3 :: rest =>
      b64c (b1 >>> 2) :: b64c (((b1 &&& 3) <<< 4) ||| (b2 >>> 4)) ::
      b64c (((b2 &&& 15) <<< 2) ||| (b3 >>> 6)) :: b64c (b3 &&& 63) ::
      base64Encode rest

/-- Embedding of `common.ComputeSha256` (util.go lines 36-39): the base64
(standard) encoding of the SHA-256 digest of the contents. -/
def computeSha256 (contents : List Nat) : String :=
  String.mk (base64Encode (sha256Bytes contents))

/-! ## Data model (common/api.go) -/

/-- Embedding of `common.BackupFile`.  Field defaults are the Go zero
values. -/
structure BackupFile where
  name : String := ""
  contents : List Nat := []
  computedSha256 : String := ""
  computedSha256WithoutFirstLine : String := ""
deriving DecidableEq

/-- Embedding of `common.RequestResult`.  The Go `error` field is `none`
for nil and `some msg` otherwise. -/
structure RequestResult where
  mikrotikIdentity : String := ""
  file : BackupFile := {}
  existingConfigSha256 : Option String := none
  err : Option String := none
deriving DecidableEq

/-- Embedding of `(*RequestResult).ShouldPerformNewBackup` (api.go lines
97-99): true iff the recorded checksum pointer is nil or the pointed-to
value differs from the freshly computed header-excluding checksum. -/
def shouldPerformNewBackup (r : RequestResult) : Bool :=
  match r.existingConfigSha256 with
  | none => true
  | some s => s != r.file.computedSha256WithoutFirstLine

/-- The metadata key `common.Sha256WithoutFirstLine` under which the
header-excluding checksum is stored on the S3 object. -/
def sha256MetadataKey : String := "tiktockersha256"

/-- The observable outcome of the `HeadObject` call inside
`S3Connector.GetObjectSha256`: an error, or a response whose user-metadata
map is nil or a concrete association list. -/
inductive HeadObjectResult where
  | headErr
  | headOk (metadata : Option (List (String × String)))
deriving DecidableEq

/-- Go map indexing `m[k]`: the stored value, or the zero value `""` when
the key is absent. -/
def goMapGet (md : List (String × String)) (k : String) : String :=
  match md.find? (fun p => p.1 = k) with
  | some p => p.2
  | none => ""

/-- Embedding of `S3Connector.GetObjectSha256` (api.go lines 41-58): nil
unless `HeadObject` succeeded with non-nil metadata, in which case a
pointer to the indexed metadata value (the empty string when the key is
missing). -/
def getObjectSha256 (h : HeadObjectResult) : Option String :=
  match h with
  | .headErr => none
  | .headOk none => none
  | .headOk (some md) => some (goMapGet md sha256MetadataKey)

/-! ## HTTP request construction (backup/mikrotik.go doRequest) -/

/-- Which Go `context.Context` a value is derived from: the per-device
timeout context created in `main`, or `context.Background()`. -/
inductive ReqContext where
  | background
  | deviceCtx
deriving DecidableEq

/-- An HTTP request as constructed by the client, recording the fields the
claims speak about: method, URL, `Content-Type` header and the context the
request object carries. -/
structure HttpRequest where
  method : String
  urlString : String
  contentType : String
  context : ReqContext
deriving DecidableEq

/-- Go's `http.NewRequest(method, url, body)`: per the net/http
documentation it wraps `NewRequestWithContext` with
`context.Background()`, so the request carries the background context. -/
def httpNewRequest (method urlString : String) : HttpRequest :=
  { method := method, urlString := urlString, contentType := "",
    context := ReqContext.background }

/-- The request built by `doRequest` (mikrotik.go lines 92-123): created
with `http.NewRequest` (no context argument is available, `doRequest`
takes none) and given the `Content-Type: application/json` header. -/
def doRequestBuilt (method urlString : String) : HttpRequest :=
  let req := httpNewRequest method urlString
  { req with contentType := "application/json" }

/-! ## Stage functions (backup/mikrotik.go) -/

/-- Embedding of `bytes.IndexByte`: index of the first occurrence of the
byte, `none` for Go's -1. -/
def indexByte : List Nat → Nat → Option Nat
  | [], _ => none
  | b :: rest, target =>
      if b = target then some 0 else (indexByte rest target).map (· + 1)

/-- The `BackupFile` assembled at the end of `downloadFile` (mikrotik.go
lines 238-252): full-contents checksum always, header-excluding checksum
only when the contents contain a newline byte (otherwise the Go zero
value `""` is kept). -/
def backupFileOf (fileName : String) (contents : List Nat) : BackupFile :=
  { name := fileName
    contents := contents
    computedSha256 := computeSha256 contents
    computedSha256WithoutFirstLine :=
      match indexByte contents 10 with
      | some i => computeSha256 (contents.drop (i + 1))
      | none => "" }

/-- The observable outcome of the HTTP exchange inside `getIdentity`:
transport/status failure, JSON decode failure, or a decoded identity. -/
inductive IdentityHttp where
  | transportErr
  | decodeErr
  | ok (name : String)
deriving DecidableEq

/-- The observable outcomes of the SCP session inside `downloadFile`:
whether building the SSH config succeeded, whether connecting succeeded,
and the copied bytes (`none` for a copy error, which also covers context
cancellation of the copy). -/
structure ScpEnv where
  sshConfigOk : Bool
  connectOk : Bool
  copy : Option (List Nat)
deriving DecidableEq

/-- The sequence of sends `getIdentity` (mikrotik.go lines 125-151)
performs on its results channel, one list element per executed
`results <- x` statement. -/
def getIdentitySends : IdentityHttp → List RequestResult
  | .transportErr => [{ err := some "failed to get system identity" }]
  | .decodeErr => [{ err := some "failed to decode system info response" }]
  | .ok n =>
      [{ mikrotikIdentity := n, file := { name := n }, err := none }]

/-- The sends of `exportConfig` (mikrotik.go lines 153-169): an error
result on request failure, otherwise the export file name
`<identity>.config.rsc`. -/
def exportConfigSends (identity : String) (httpOk : Bool) : List RequestResult :=
  if httpOk then
    [{ mikrotikIdentity := identity,
       file := { name := identity ++ ".config.rsc" }, err := none }]
  else [{ err := some "failed to export config" }]

/-- The JSON body built by `performBackup` (mikrotik.go lines 178-191):
`name` and `dont-encrypt` always, `password` only when encrypting. -/
structure BackupBody where
  name : String
  dontEncrypt : Bool
  password : Option String
deriving DecidableEq

/-- Embedding of the body construction in `performBackup`: encryption is
on unless the configured key is empty; the key is sent as `password` only
when encrypting. -/
def performBackupBody (identity key : String) : BackupBody :=
  let encrypt := if key == "" then false else true
  { name := identity
    dontEncrypt := !encrypt
    password := if encrypt then some key else none }

/-- The sends of `performBackup` (mikrotik.go lines 172-207): an error
result on request failure, otherwise the backup file name
`<identity>.backup`. -/
def performBackupSends (identity key : String) (httpOk : Bool) :
    List RequestResult :=
  let _body := performBackupBody identity key
  if httpOk then
    [{ mikrotikIdentity := identity,
       file := { name := identity ++ ".backup" }, err := none }]
  else [{ err := some "failed to perform backup" }]

/-- The sends of `downloadFile` (mikrotik.go lines 209-255): one error
result per failure path, otherwise the downloaded `BackupFile` with its
two checksums. -/
def downloadFileSends (fileName : String) (e : ScpEnv) : List RequestResult :=
  if !e.sshConfigOk then [{ err := some "failed to create SSH config" }]
  else if !e.connectOk then [{ err := some "failed to SSH" }]
  else
    match e.copy with
    | none => [{ err := some "failed to SCP file" }]
    | some contents => [{ file := backupFileOf fileName contents, err := none }]

/-- Embedding of `common.WaitForResult`: the first value sent on the
channel; a closed channel (no send) yields an error result.  Context
cancellation during the wait is subsumed by the error cases of the stage
environments. -/
def waitForResult : List RequestResult → RequestResult
  | [] => { err := some "channel closed" }
  | r :: _ => r

/-! ## Per-device orchestration (main.go lines 74-152, mikrotik.go lines
26-90) -/

/-- The remote calls and store writes a device pipeline can issue, in
issue order. -/
inductive Action where
  | getIdentityAct
  | exportConfigAct
  | downloadFileAct (name : String)
  | headObjectAct (name : String)
  | performBackupAct
  | uploadFileAct (name : String)
  | storeFileAct (name : String)
deriving DecidableEq

/-- The environment of one device run: the observable outcome of every
remote interaction the pipeline may attempt, plus the device settings the
pipeline reads. -/
structure DeviceEnv where
  identityHttp : IdentityHttp
  exportHttpOk : Bool
  configScp : ScpEnv
  headResult : HeadObjectResult
  backupHttpOk : Bool
  backupScp : ScpEnv
  configWriteOk : Bool
  backupWriteOk : Bool
  s3Mode : Bool
  encryptionKey : String

/-- Terminal states of one device pipeline. -/
inductive Outcome where
  | skipped
  | stored
  | failed
deriving DecidableEq

/-- Embedding of `backup.MikrotikConfigExport` (mikrotik.go lines 26-63):
identity, then export trigger, then config download, stopping at the
first error; returns the issued actions and the result sent on
`deviceComms`. -/
def mikrotikConfigExport (env : DeviceEnv) : List Action × RequestResult :=
  let r1 := waitForResult (getIdentitySends env.identityHttp)
  match r1.err with
  | some e => ([.getIdentityAct], { err := some ("backup failure: " ++ e) })
  | none =>
    let identity := r1.mikrotikIdentity
    let r2 := waitForResult (exportConfigSends identity env.exportHttpOk)
    match r2.err with
    | some e =>
        ([.getIdentityAct, .exportConfigAct],
         { err := some ("backup failure: " ++ e) })
    | none =>
      let r3 := waitForResult (downloadFileSends r2.file.name env.configScp)
      match r3.err with
      | some e =>
          ([.getIdentityAct, .exportConfigAct, .downloadFileAct r2.file.name],
           { err := some ("backup failure: " ++ e) })
      | none =>
          ([.getIdentityAct, .exportConfigAct, .downloadFileAct r2.file.name],
           { mikrotikIdentity := identity, file := r3.file, err := none })

/-- Embedding of `backup.MikrotikBackup` (mikrotik.go lines 65-90):
backup trigger then backup download, stopping at the first error; on
success the download result is forwarded unchanged. -/
def mikrotikBackup (identity : String) (env : DeviceEnv) :
    List Action × RequestResult :=
  let r1 :=
    waitForResult (performBackupSends identity env.encryptionKey env.backupHttpOk)
  match r1.err with
  | some e => ([.performBackupAct], { err := some ("backup failure: " ++ e) })
  | none =>
    let r2 := waitForResult (downloadFileSends r1.file.name env.backupScp)
    match r2.err with
    | some e =>
        ([.performBackupAct, .downloadFileAct r1.file.name],
         { err := some ("backup failure: " ++ e) })
    | none => ([.performBackupAct, .downloadFileAct r1.file.name], r2)

/-- The config-export result after the optional S3 metadata lookup
(main.go lines 95-104): in S3 mode `ExistingConfigSha256` is set from
`GetObjectSha256`, otherwise it stays nil. -/
def afterLookup (env : DeviceEnv) (cfgRes : RequestResult) : RequestResult :=
  if env.s3Mode then
    { cfgRes with existingConfigSha256 := getObjectSha256 env.headResult }
  else cfgRes

/-- Embedding of the per-device goroutine in `main` (main.go lines
80-151): config export, optional metadata lookup, change decision, and on
a changed config the backup pipeline followed by the two store writes
(S3 uploads or local file writes); any error terminates the run as
`failed`, an unchanged config terminates it as `skipped`. -/
def runDevice (env : DeviceEnv) : List Action × Outcome :=
  let p1 := mikrotikConfigExport env
  match p1.2.err with
  | some _ => (p1.1, .failed)
  | none =>
    let lookupActs :=
      if env.s3Mode then [Action.headObjectAct p1.2.file.name] else []
    let cfgRes := afterLookup env p1.2
    if shouldPerformNewBackup cfgRes then
      let p2 := mikrotikBackup cfgRes.mikrotikIdentity env
      let tr := p1.1 ++ lookupActs ++ p2.1
      match p2.2.err with
      | some _ => (tr, .failed)
      | none =>
        if env.s3Mode then
          let tr2 := tr ++ [Action.uploadFileAct cfgRes.file.name]
          if env.configWriteOk then
            let tr3 := tr2 ++ [Action.uploadFileAct p2.2.file.name]
            if env.backupWriteOk then (tr3, .stored) else (tr3, .failed)
          else (tr2, .failed)
        else
          let tr2 := tr ++ [Action.storeFileAct cfgRes.file.name]
          if env.configWriteOk then
            let tr3 := tr2 ++ [Action.storeFileAct p2.2.file.name]
            if env.backupWriteOk then (tr3, .stored) else (tr3, .failed)
          else (tr2, .failed)
    else (p1.1 ++ lookupActs, .skipped)

/-- Whether an action is a store write (an S3 upload or a local file
write). -/
def Action.isStoreWrite : Action → Bool
  | .uploadFileAct _ => true
  | .storeFileAct _ => true
  | _ => false

/-! ## Chunked download -/

/-- The fixed chunk size of the chunked-download variant: 10 KiB. -/
def chunkSize : Nat := 10240

/-- Modelled from the spec: the chunked-download variant of `download`
(the file-read endpoint taking `chunk-size` 10240 and an `offset`) is
described in the spec but not present under src/, whose `downloadFile`
uses the secure-copy stream instead.  A chunk request at `offset`
answers with the file bytes from `offset` up to the chunk size. -/
def chunkRequest (file : List Nat) (offset : Nat) : List Nat :=
  (file.drop offset).take chunkSize

/-- Modelled from the spec: the serial fetch loop of the chunked
download.  Starting at `offset`, while the offset is below the reported
file size, issue the chunk request and advance the offset by the chunk
size; returns the issued requests as (offset, response) pairs in issue
order. -/
def chunkedFetch (file : List Nat) (offset : Nat) : List (Nat × List Nat) :=
  if _h : offset < file.length then
    (offset, chunkRequest file offset) :: chunkedFetch file (offset + chunkSize)
  else []
termination_by file.length - offset
decreasing_by
  simp only [chunkSize]
  omega

/-- Modelled from the spec: the assembled chunked download, the
concatenation of the chunk responses in issue order. -/
def chunkedDownload (file : List Nat) : List Nat :=
  (chunkedFetch file 0).foldr (fun p acc => p.2 ++ acc) []

/-! ## Helper lemmas -/

/-- `toBytesBE` produces exactly `k` bytes. -/
theorem toBytesBE_length (n k : Nat) : (toBytesBE n k).length = k := by
  induction k generalizing n with
  | zero => rfl
  | succ k ih => simp [toBytesBE, ih]

/-- The SHA-256 digest always has 32 bytes. -/
theorem sha256Bytes_length (msg : List Nat) : (sha256Bytes msg).length = 32 := by
  simp [sha256Bytes, toBytesBE_length]

/-- Base64 of a nonempty byte list is nonempty. -/
theorem base64Encode_ne_nil (l : List Nat) (h : l ≠ []) : base64Encode l ≠ [] := by
  match l with
  | [] => exact absurd rfl h
  | [b1] => simp [base64Encode]
  | [b1, b2] => simp [base64Encode]
  | b1 :: b2 :: b3 :: rest => simp [base64Encode]

/-- A computed checksum is never the empty string: the digest has 32
bytes, so its base64 encoding is a nonempty character list. -/
theorem computeSha256_ne_empty (l : List Nat) : computeSha256 l ≠ "" := by
  intro h
  have hne : sha256Bytes l ≠ [] := by
    intro hnil
    have := sha256Bytes_length l
    rw [hnil] at this
    simp at this
  have hdata : base64Encode (sha256Bytes l) = [] := by
    have := congrArg String.data h
    simpa [computeSha256] using this
  exact base64Encode_ne_nil _ hne hdata

/-- `indexByte` misses a byte that is not in the list. -/
theorem indexByte_eq_none (l : List Nat) (t : Nat) (h : t ∉ l) :
    indexByte l t = none := by
  induction l with
  | nil => rfl
  | cons a as ih =>
      simp only [List.mem_cons, not_or] at h
      have hne : a ≠ t := fun hh => h.1 hh.symm
      simp [indexByte, hne, ih h.2]

/-- `indexByte` finds the separator right after a separator-free header. -/
theorem indexByte_header (hd r : List Nat) (t : Nat) (hmem : t ∉ hd) :
    indexByte (hd ++ t :: r) t = some hd.length := by
  induction hd with
  | nil => simp [indexByte]
  | cons a as ih =>
      simp only [List.mem_cons, not_or] at hmem
      have hne : a ≠ t := fun hh => hmem.1 hh.symm
      simp [indexByte, hne, ih hmem.2]

/-- Dropping the header and the separator leaves the remainder. -/
theorem drop_header (hd r : List Nat) (t : Nat) :
    (hd ++ t :: r).drop (hd.length + 1) = r := by
  induction hd with
  | nil => simp
  | cons a as ih => simp [ih]

/-- The file name recorded by `downloadFile` is the requested name. -/
theorem backupFileOf_name (n : String) (c : List Nat) :
    (backupFileOf n c).name = n := rfl

/-- A fully successful config-export sub-pipeline: identity, export and
download succeed, and the sent result carries the downloaded file. -/
theorem mikrotikConfigExport_ok (env : DeviceEnv) (idName : String)
    (contents : List Nat)
    (hid : env.identityHttp = .ok idName) (hexp : env.exportHttpOk = true)
    (hscp : env.configScp = { sshConfigOk := true, connectOk := true,
                              copy := some contents }) :
    mikrotikConfigExport env =
      ([.getIdentityAct, .exportConfigAct,
        .downloadFileAct (idName ++ ".config.rsc")],
       { mikrotikIdentity := idName,
         file := backupFileOf (idName ++ ".config.rsc") contents,
         err := none }) := by
  simp [mikrotikConfigExport, waitForResult, getIdentitySends,
    exportConfigSends, downloadFileSends, backupFileOf, hid, hexp, hscp]

/-- A fully successful backup sub-pipeline: trigger and download succeed,
and the downloaded backup file is forwarded. -/
theorem mikrotikBackup_ok (env : DeviceEnv) (identity : String)
    (bContents : List Nat)
    (hbk : env.backupHttpOk = true)
    (hbscp : env.backupScp = { sshConfigOk := true, connectOk := true,
                               copy := some bContents }) :
    mikrotikBackup identity env =
      ([.performBackupAct, .downloadFileAct (identity ++ ".backup")],
       { file := backupFileOf (identity ++ ".backup") bContents,
         err := none }) := by
  simp [mikrotikBackup, waitForResult, performBackupSends,
    downloadFileSends, backupFileOf, hbk, hbscp]

/-! ## Claim theorems -/

/-- C2: the change decision of `ShouldPerformNewBackup` is "changed"
exactly when the recorded checksum is absent or differs from the freshly
computed header-excluding checksum. -/
theorem c2_change_decision (r : RequestResult) :
    shouldPerformNewBackup r = true ↔
      r.existingConfigSha256 = none ∨
        ∃ s, r.existingConfigSha256 = some s ∧
          s ≠ r.file.computedSha256WithoutFirstLine := by
  cases h : r.existingConfigSha256 with
  | none => simp [shouldPerformNewBackup, h]
  | some s => simp [shouldPerformNewBackup, h]

/-- C4: the header-excluding checksum ignores the first line entirely:
for any two newline-free headers followed by the same remainder, the
computed checksums agree, and both are the digest of the bytes after the
first newline. -/
theorem c4_header_invariance (fileName : String) (header headerB rest : List Nat)
    (h1 : 10 ∉ header) (h2 : 10 ∉ headerB) :
    (backupFileOf fileName (header ++ 10 :: rest)).computedSha256WithoutFirstLine =
        (backupFileOf fileName (headerB ++ 10 :: rest)).computedSha256WithoutFirstLine ∧
      (backupFileOf fileName (header ++ 10 :: rest)).computedSha256WithoutFirstLine =
        computeSha256 rest := by
  have e1 : (backupFileOf fileName (header ++ 10 :: rest)).computedSha256WithoutFirstLine
      = computeSha256 rest := by
    simp [backupFileOf, indexByte_header header rest 10 h1, drop_header]
  have e2 : (backupFileOf fileName (headerB ++ 10 :: rest)).computedSha256WithoutFirstLine
      = computeSha256 rest := by
    simp [backupFileOf, indexByte_header headerB rest 10 h2, drop_header]
  exact ⟨e1.trans e2.symm, e1⟩

/-- C4 witness: two concrete headers over a common remainder yield the
same header-excluding checksum, the digest of the remainder. -/
theorem c4_witness :
    (10 ∉ [65]) ∧ (10 ∉ [66, 67]) ∧
    ((backupFileOf "f" ([65] ++ 10 :: [97])).computedSha256WithoutFirstLine =
        (backupFileOf "f" ([66, 67] ++ 10 :: [97])).computedSha256WithoutFirstLine ∧
      (backupFileOf "f" ([65] ++ 10 :: [97])).computedSha256WithoutFirstLine =
        computeSha256 [97]) :=
  ⟨by decide, by decide,
   c4_header_invariance "f" [65] [66, 67] [97] (by decide) (by decide)⟩

/-- C5: the backup-trigger body disables encryption and omits the
password exactly when the configured key is empty, includes the key as
password otherwise, and an empty key does not make the stage fail. -/
theorem c5_backup_body (identity key : String) :
    (key = "" →
        (performBackupBody identity key).dontEncrypt = true ∧
        (performBackupBody identity key).password = none ∧
        (waitForResult (performBackupSends identity key true)).err = none) ∧
      (key ≠ "" →
        (performBackupBody identity key).dontEncrypt = false ∧
        (performBackupBody identity key).password = some key) := by
  constructor
  · intro hk
    subst hk
    simp [performBackupBody, performBackupSends, waitForResult]
  · intro hk
    simp [performBackupBody, performBackupSends, hk]

/-- C5 witness: the body at an empty and at a nonempty key. -/
theorem c5_witness :
    ((performBackupBody "mk" "").dontEncrypt = true ∧
      (performBackupBody "mk" "").password = none ∧
      (waitForResult (performBackupSends "mk" "" true)).err = none) ∧
    ((performBackupBody "mk" "k1").dontEncrypt = false ∧
      (performBackupBody "mk" "k1").password = some "k1") :=
  ⟨(c5_backup_body "mk" "").1 rfl, (c5_backup_body "mk" "k1").2 (by decide)⟩

/-- C7: each stage function sends exactly one result on its channel, on
every execution path of its environment. -/
theorem c7_exactly_one_send (ihr : IdentityHttp) (identity key fn : String)
    (eOk bOk : Bool) (scp : ScpEnv) :
    (getIdentitySends ihr).length = 1 ∧
      (exportConfigSends identity eOk).length = 1 ∧
      (performBackupSends identity key bOk).length = 1 ∧
      (downloadFileSends fn scp).length = 1 := by
  refine ⟨?_, ?_, ?_, ?_⟩
  · cases ihr <;> simp [getIdentitySends]
  · cases eOk <;> simp [exportConfigSends]
  · cases bOk <;> simp [performBackupSends]
  · obtain ⟨s1, s2, c⟩ := scp
    cases s1 <;> cases s2 <;> cases c <;> simp [downloadFileSends]

/-- C8 counterexample: the request `doRequest` builds for the identity
endpoint carries the background context, not the per-device cancellation
context, because `http.NewRequest` is used without a context. -/
theorem c8_counterexample :
    (doRequestBuilt "GET" "http://device/rest/system/identity").context ≠
      ReqContext.deviceCtx := by
  decide

/-- C8 amended: every request built by `doRequest` carries the background
context (so expiry of the device deadline does not cancel the in-flight
HTTP call; the pipeline only observes cancellation at the result wait),
while the `Content-Type: application/json` header is set as specified. -/
theorem c8_amended (method urlString : String) :
    (doRequestBuilt method urlString).context = ReqContext.background ∧
      (doRequestBuilt method urlString).contentType = "application/json" :=
  ⟨rfl, rfl⟩

/-- C10: a download without any newline byte yields an empty
header-excluding checksum, which is not the digest of the whole contents
nor of the empty suffix, while the full checksum is still the digest of
the whole contents. -/
theorem c10_no_newline_checksum (fileName : String) (contents : List Nat)
    (hnl : 10 ∉ contents) :
    (backupFileOf fileName contents).computedSha256WithoutFirstLine = "" ∧
      (backupFileOf fileName contents).computedSha256WithoutFirstLine ≠
        computeSha256 contents ∧
      (backupFileOf fileName contents).computedSha256WithoutFirstLine ≠
        computeSha256 [] ∧
      (backupFileOf fileName contents).computedSha256 = computeSha256 contents := by
  have he : (backupFileOf fileName contents).computedSha256WithoutFirstLine = "" := by
    simp [backupFileOf, indexByte_eq_none contents 10 hnl]
  refine ⟨he, ?_, ?_, rfl⟩
  · rw [he]
    exact fun h => computeSha256_ne_empty contents h.symm
  · rw [he]
    exact fun h => computeSha256_ne_empty [] h.symm

/-- C10 witness: a concrete newline-free download. -/
theorem c10_witness :
    (10 ∉ [97, 98]) ∧
    ((backupFileOf "f2" [97, 98]).computedSha256WithoutFirstLine = "" ∧
      (backupFileOf "f2" [97, 98]).computedSha256WithoutFirstLine ≠
        computeSha256 [97, 98] ∧
      (backupFileOf "f2" [97, 98]).computedSha256WithoutFirstLine ≠
        computeSha256 [] ∧
      (backupFileOf "f2" [97, 98]).computedSha256 = computeSha256 [97, 98]) :=
  ⟨by decide, c10_no_newline_checksum "f2" [97, 98] (by decide)⟩

/-- C3 counterexample: when the stored object's metadata exists but lacks
the checksum field, `GetObjectSha256` returns a pointer to the empty
string, and an export without a newline has the empty header-excluding
checksum, so the decision is "unchanged" rather than "changed". -/
theorem c3_counterexample :
    shouldPerformNewBackup
        { mikrotikIdentity := "mk",
          file := backupFileOf "mk.config.rsc" [97],
          existingConfigSha256 :=
            getObjectSha256 (HeadObjectResult.headOk (some [])) } = false := by
  rfl

/-- C3 amended: when the object was never stored (head error or nil
metadata) the decision is "changed" regardless of contents; when the
metadata merely lacks the checksum field, the code reads the recorded
checksum as the empty string, so the decision is "changed" iff the export
contains a line terminator (its header-excluding checksum is nonempty). -/
theorem c3_amended (fileName : String) (contents : List Nat)
    (hobj : HeadObjectResult) :
    ((hobj = .headErr ∨ hobj = .headOk none) →
        shouldPerformNewBackup
          { file := backupFileOf fileName contents,
            existingConfigSha256 := getObjectSha256 hobj } = true) ∧
      (∀ md, hobj = .headOk (some md) →
        md.find? (fun p => p.1 = sha256MetadataKey) = none →
        (shouldPerformNewBackup
            { file := backupFileOf fileName contents,
              existingConfigSha256 := getObjectSha256 hobj } = true ↔
          (indexByte contents 10).isSome)) := by
  constructor
  · rintro (rfl | rfl) <;> simp [getObjectSha256, shouldPerformNewBackup]
  · rintro md rfl hfind
    simp only [getObjectSha256, goMapGet, hfind, shouldPerformNewBackup]
    cases hidx : indexByte contents 10 with
    | none => simp [backupFileOf, hidx]
    | some i =>
        simp [backupFileOf, hidx, bne_iff_ne]
        exact fun h => computeSha256_ne_empty _ h.symm

/-- C3 witness: a never-stored object forces a backup regardless of
contents, and a metadata map without the field decides by the presence of
a newline. -/
theorem c3_witness :
    shouldPerformNewBackup
        { file := backupFileOf "mk.config.rsc" [97],
          existingConfigSha256 := getObjectSha256 HeadObjectResult.headErr } = true ∧
      (shouldPerformNewBackup
          { file := backupFileOf "mk.config.rsc" [10],
            existingConfigSha256 :=
              getObjectSha256 (HeadObjectResult.headOk (some [])) } = true ↔
        (indexByte [10] 10).isSome) :=
  ⟨(c3_amended "mk.config.rsc" [97] .headErr).1 (Or.inl rfl),
   (c3_amended "mk.config.rsc" [10] (.headOk (some []))).2 [] rfl (by decide)⟩

/-- C1: when the recorded checksum on the stored artifact equals the
freshly computed header-excluding checksum of the downloaded export, the
device run performs no store write and terminates as `skipped`. -/
theorem c1_checksum_match_skips (env : DeviceEnv) (idName : String)
    (contents : List Nat) (sha : String)
    (hs3 : env.s3Mode = true)
    (hid : env.identityHttp = .ok idName)
    (hexp : env.exportHttpOk = true)
    (hscp : env.configScp = { sshConfigOk := true, connectOk := true,
                              copy := some contents })
    (hsha : getObjectSha256 env.headResult = some sha)
    (heq : sha = (backupFileOf (idName ++ ".config.rsc")
                    contents).computedSha256WithoutFirstLine) :
    (runDevice env).2 = Outcome.skipped ∧
      ∀ a ∈ (runDevice env).1, a.isStoreWrite = false := by
  subst heq
  have hrun : runDevice env =
      ([.getIdentityAct, .exportConfigAct,
        .downloadFileAct (idName ++ ".config.rsc"),
        .headObjectAct (idName ++ ".config.rsc")], Outcome.skipped) := by
    simp [runDevice, mikrotikConfigExport, afterLookup, waitForResult,
      getIdentitySends, exportConfigSends, downloadFileSends, backupFileOf,
      shouldPerformNewBackup, hs3, hid, hexp, hscp, hsha]
  rw [hrun]
  refine ⟨rfl, ?_⟩
  intro a ha
  simp only [List.mem_cons, List.mem_singleton, List.not_mem_nil] at ha
  rcases ha with rfl | rfl | rfl | rfl | h
  · rfl
  · rfl
  · rfl
  · rfl
  · cases h

/-- C1 witness: a concrete S3-mode run whose stored checksum equals the
computed one is skipped with no store write. -/
theorem c1_witness :
    ((runDevice
        { identityHttp := .ok "mk", exportHttpOk := true,
          configScp := { sshConfigOk := true, connectOk := true, copy := some [10] },
          headResult := .headOk (some [(sha256MetadataKey, computeSha256 [])]),
          backupHttpOk := true,
          backupScp := { sshConfigOk := true, connectOk := true, copy := some [] },
          configWriteOk := true, backupWriteOk := true,
          s3Mode := true, encryptionKey := "" }).2 = Outcome.skipped ∧
      ∀ a ∈ (runDevice
        { identityHttp := .ok "mk", exportHttpOk := true,
          configScp := { sshConfigOk := true, connectOk := true, copy := some [10] },
          headResult := .headOk (some [(sha256MetadataKey, computeSha256 [])]),
          backupHttpOk := true,
          backupScp := { sshConfigOk := true, connectOk := true, copy := some [] },
          configWriteOk := true, backupWriteOk := true,
          s3Mode := true, encryptionKey := "" }).1, a.isStoreWrite = false) :=
  c1_checksum_match_skips _ "mk" [10] (computeSha256 []) rfl rfl rfl rfl rfl
    (by simp [backupFileOf, indexByte])

/-- C6: an error in any stage of the device pipeline terminates the run
as `failed` with exactly the actions up to and including the failing
stage, so no later stage is ever issued; in particular an identity
failure issues neither export, backup trigger, nor download. -/
theorem c6_fail_fast (env : DeviceEnv) :
    ((env.identityHttp = .transportErr ∨ env.identityHttp = .decodeErr) →
        runDevice env = ([.getIdentityAct], .failed)) ∧
    (∀ idName, env.identityHttp = .ok idName → env.exportHttpOk = false →
        runDevice env = ([.getIdentityAct, .exportConfigAct], .failed)) ∧
    (∀ idName, env.identityHttp = .ok idName → env.exportHttpOk = true →
        (waitForResult (downloadFileSends (idName ++ ".config.rsc")
            env.configScp)).err.isSome →
        runDevice env = ([.getIdentityAct, .exportConfigAct,
          .downloadFileAct (idName ++ ".config.rsc")], .failed)) ∧
    (∀ idName contents, env.identityHttp = .ok idName → env.exportHttpOk = true →
        env.configScp = { sshConfigOk := true, connectOk := true,
                          copy := some contents } →
        shouldPerformNewBackup (afterLookup env (mikrotikConfigExport env).2) = true →
        env.backupHttpOk = false →
        runDevice env = ([.getIdentityAct, .exportConfigAct,
            .downloadFileAct (idName ++ ".config.rsc")] ++
          (if env.s3Mode then [.headObjectAct (idName ++ ".config.rsc")] else []) ++
          [.performBackupAct], .failed)) ∧
    (∀ idName contents, env.identityHttp = .ok idName → env.exportHttpOk = true →
        env.configScp = { sshConfigOk := true, connectOk := true,
                          copy := some contents } →
        shouldPerformNewBackup (afterLookup env (mikrotikConfigExport env).2) = true →
        env.backupHttpOk = true →
        (waitForResult (downloadFileSends (idName ++ ".backup")
            env.backupScp)).err.isSome →
        runDevice env = ([.getIdentityAct, .exportConfigAct,
            .downloadFileAct (idName ++ ".config.rsc")] ++
          (if env.s3Mode then [.headObjectAct (idName ++ ".config.rsc")] else []) ++
          [.performBackupAct, .downloadFileAct (idName ++ ".backup")], .failed)) ∧
    (∀ idName contents bContents, env.identityHttp = .ok idName →
        env.exportHttpOk = true →
        env.configScp = { sshConfigOk := true, connectOk := true,
                          copy := some contents } →
        shouldPerformNewBackup (afterLookup env (mikrotikConfigExport env).2) = true →
        env.backupHttpOk = true →
        env.backupScp = { sshConfigOk := true, connectOk := true,
                          copy := some bContents } →
        env.configWriteOk = false →
        runDevice env = ([.getIdentityAct, .exportConfigAct,
            .downloadFileAct (idName ++ ".config.rsc")] ++
          (if env.s3Mode then [.headObjectAct (idName ++ ".config.rsc")] else []) ++
          [.performBackupAct, .downloadFileAct (idName ++ ".backup")] ++
          [(if env.s3Mode then Action.uploadFileAct (idName ++ ".config.rsc")
            else Action.storeFileAct (idName ++ ".config.rsc"))], .failed)) ∧
    (∀ idName contents bContents, env.identityHttp = .ok idName →
        env.exportHttpOk = true →
        env.configScp = { sshConfigOk := true, connectOk := true,
                          copy := some contents } →
        shouldPerformNewBackup (afterLookup env (mikrotikConfigExport env).2) = true →
        env.backupHttpOk = true →
        env.backupScp = { sshConfigOk := true, connectOk := true,
                          copy := some bContents } →
        env.configWriteOk = true →
        env.backupWriteOk = false →
        runDevice env = ([.getIdentityAct, .exportConfigAct,
            .downloadFileAct (idName ++ ".config.rsc")] ++
          (if env.s3Mode then [.headObjectAct (idName ++ ".config.rsc")] else []) ++
          [.performBackupAct, .downloadFileAct (idName ++ ".backup")] ++
          [(if env.s3Mode then Action.uploadFileAct (idName ++ ".config.rsc")
            else Action.storeFileAct (idName ++ ".config.rsc")),
           (if env.s3Mode then Action.uploadFileAct (idName ++ ".backup")
            else Action.storeFileAct (idName ++ ".backup"))], .failed)) := by
  refine ⟨?_, ?_, ?_, ?_, ?_, ?_, ?_⟩
  · rintro (hid | hid) <;>
      simp [runDevice, mikrotikConfigExport, waitForResult, getIdentitySends, hid]
  · intro idName hid hexp
    simp [runDevice, mikrotikConfigExport, waitForResult, getIdentitySends,
      exportConfigSends, hid, hexp]
  · intro idName hid hexp hds
    obtain ⟨e, he⟩ := Option.isSome_iff_exists.mp hds
    simp [runDevice, mikrotikConfigExport, waitForResult, getIdentitySends,
      exportConfigSends, hid, hexp] at he ⊢
    simp [he]
  · intro idName contents hid hexp hscp hdec hbk
    rw [mikrotikConfigExport_ok env idName contents hid hexp hscp] at hdec
    cases hs3 : env.s3Mode
    · simp [runDevice, mikrotikConfigExport_ok env idName contents hid hexp hscp,
        afterLookup, hs3, shouldPerformNewBackup, backupFileOf_name,
        mikrotikBackup, waitForResult, performBackupSends, hbk]
    · simp [afterLookup, hs3] at hdec
      simp [runDevice, mikrotikConfigExport_ok env idName contents hid hexp hscp,
        afterLookup, hs3, backupFileOf_name, mikrotikBackup, waitForResult,
        performBackupSends, hbk, hdec]
  · intro idName contents hid hexp hscp hdec hbk hbs
    obtain ⟨e, he⟩ := Option.isSome_iff_exists.mp hbs
    rw [mikrotikConfigExport_ok env idName contents hid hexp hscp] at hdec
    simp only [waitForResult] at he
    cases hs3 : env.s3Mode
    · simp [runDevice, mikrotikConfigExport_ok env idName contents hid hexp hscp,
        afterLookup, hs3, shouldPerformNewBackup, backupFileOf_name,
        mikrotikBackup, waitForResult, performBackupSends, hbk, he]
    · simp [afterLookup, hs3] at hdec
      simp [runDevice, mikrotikConfigExport_ok env idName contents hid hexp hscp,
        afterLookup, hs3, backupFileOf_name, mikrotikBackup, waitForResult,
        performBackupSends, hbk, hdec, he]
  · intro idName contents bContents hid hexp hscp hdec hbk hbscp hcw
    rw [mikrotikConfigExport_ok env idName contents hid hexp hscp] at hdec
    cases hs3 : env.s3Mode
    · simp [runDevice, mikrotikConfigExport_ok env idName contents hid hexp hscp,
        mikrotikBackup_ok env idName bContents hbk hbscp,
        afterLookup, hs3, shouldPerformNewBackup, backupFileOf_name, hcw]
    · simp [afterLookup, hs3] at hdec
      simp [runDevice, mikrotikConfigExport_ok env idName contents hid hexp hscp,
        mikrotikBackup_ok env idName bContents hbk hbscp,
        afterLookup, hs3, backupFileOf_name, hcw, hdec]
  · intro idName contents bContents hid hexp hscp hdec hbk hbscp hcw hbw
    rw [mikrotikConfigExport_ok env idName contents hid hexp hscp] at hdec
    cases hs3 : env.s3Mode
    · simp [runDevice, mikrotikConfigExport_ok env idName contents hid hexp hscp,
        mikrotikBackup_ok env idName bContents hbk hbscp,
        afterLookup, hs3, shouldPerformNewBackup, backupFileOf_name, hcw, hbw]
    · simp [afterLookup, hs3] at hdec
      simp [runDevice, mikrotikConfigExport_ok env idName contents hid hexp hscp,
        mikrotikBackup_ok env idName bContents hbk hbscp,
        afterLookup, hs3, backupFileOf_name, hcw, hbw, hdec]

/-- C6 witness: a failed identity call issues nothing further, and a
failed export trigger stops right after the export action. -/
theorem c6_witness :
    runDevice
        { identityHttp := .transportErr, exportHttpOk := true,
          configScp := { sshConfigOk := true, connectOk := true, copy := none },
          headResult := .headErr, backupHttpOk := true,
          backupScp := { sshConfigOk := true, connectOk := true, copy := none },
          configWriteOk := true, backupWriteOk := true,
          s3Mode := false, encryptionKey := "" } =
      ([.getIdentityAct], .failed) ∧
    runDevice
        { identityHttp := .ok "mk", exportHttpOk := false,
          configScp := { sshConfigOk := true, connectOk := true, copy := none },
          headResult := .headErr, backupHttpOk := true,
          backupScp := { sshConfigOk := true, connectOk := true, copy := none },
          configWriteOk := true, backupWriteOk := true,
          s3Mode := false, encryptionKey := "" } =
      ([.getIdentityAct, .exportConfigAct], .failed) :=
  ⟨(c6_fail_fast _).1 (Or.inl rfl), (c6_fail_fast _).2.1 "mk" rfl rfl⟩

/-- The chunk responses concatenate, in issue order, to the remote file
past the starting offset. -/
theorem chunkedFetch_concat (file : List Nat) (offset : Nat) :
    (chunkedFetch file offset).foldr (fun p acc => p.2 ++ acc) [] =
      file.drop offset := by
  induction offset using chunkedFetch.induct with
  | file => exact file
  | case1 offset h ih =>
      rw [chunkedFetch.eq_def, dif_pos h, List.foldr_cons, ih, chunkRequest]
      rw [← List.drop_drop, List.take_append_drop]
  | case2 offset h =>
      rw [chunkedFetch.eq_def, dif_neg h, List.foldr_nil]
      rw [List.drop_eq_nil_of_le (Nat.le_of_not_lt h)]

/-- The fetch loop issues exactly the ceiling of remaining-size over
chunk-size requests. -/
theorem chunkedFetch_length (file : List Nat) (offset : Nat) :
    (chunkedFetch file offset).length =
      (file.length - offset + chunkSize - 1) / chunkSize := by
  have hC : 0 < chunkSize := by simp [chunkSize]
  induction offset using chunkedFetch.induct with
  | file => exact file
  | case1 offset h ih =>
      rw [chunkedFetch.eq_def, dif_pos h, List.length_cons, ih]
      have e2 : file.length - offset + chunkSize - 1 =
          file.length - offset - 1 + chunkSize := by omega
      rw [e2, Nat.add_div_right _ hC]
      rcases le_or_lt chunkSize (file.length - offset) with hge | hlt
      · have e1 : file.length - (offset + chunkSize) + chunkSize - 1 =
            file.length - offset - 1 := by omega
        rw [e1]
      · have e1 : file.length - (offset + chunkSize) + chunkSize - 1 =
            chunkSize - 1 := by omega
        rw [e1, Nat.div_eq_of_lt (by omega), Nat.div_eq_of_lt (by omega)]
  | case2 offset h =>
      rw [chunkedFetch.eq_def, dif_neg h, List.length_nil]
      rw [Nat.sub_eq_zero_of_le (Nat.le_of_not_lt h)]
      rw [Nat.div_eq_of_lt (by omega)]

/-- The issued offsets form the arithmetic progression starting at the
initial offset with the chunk size as step. -/
theorem chunkedFetch_offsets (file : List Nat) (offset : Nat) :
    (chunkedFetch file offset).map Prod.fst =
      (List.range (chunkedFetch file offset).length).map
        (fun i => offset + i * chunkSize) := by
  induction offset using chunkedFetch.induct with
  | file => exact file
  | case1 offset h ih =>
      rw [chunkedFetch.eq_def, dif_pos h, List.map_cons, List.length_cons, ih]
      rw [List.range_succ_eq_map, List.map_cons, List.map_map]
      refine congrArg₂ List.cons (by omega) ?_
      refine List.map_congr_left ?_
      intro i hi
      simp only [Function.comp_apply, Nat.succ_eq_add_one]
      ring
  | case2 offset h =>
      rw [chunkedFetch.eq_def, dif_neg h]
      rw [List.map_nil, List.length_nil, List.range_zero, List.map_nil]

/-- C9: the chunked download of a file of size S issues ceil(S / C)
requests, C = 10240, at the serial monotonically increasing offsets 0, C,
2C, ..., and the concatenation of the responses in issue order is exactly
the original file. -/
theorem c9_chunked_download (file : List Nat) :
    (chunkedFetch file 0).length = (file.length + chunkSize - 1) / chunkSize ∧
      (chunkedFetch file 0).map Prod.fst =
        (List.range ((file.length + chunkSize - 1) / chunkSize)).map
          (· * chunkSize) ∧
      List.Pairwise (· < ·) ((chunkedFetch file 0).map Prod.fst) ∧
      chunkedDownload file = file := by
  have hC : 0 < chunkSize := by simp [chunkSize]
  have hlen : (chunkedFetch file 0).length =
      (file.length + chunkSize - 1) / chunkSize := by
    rw [chunkedFetch_length, Nat.sub_zero]
  have hoff : (chunkedFetch file 0).map Prod.fst =
      (List.range ((file.length + chunkSize - 1) / chunkSize)).map
        (· * chunkSize) := by
    rw [chunkedFetch_offsets, hlen]
    exact List.map_congr_left (fun i _ => by simp)
  refine ⟨hlen, hoff, ?_, ?_⟩
  · rw [hoff]
    refine List.Pairwise.map _ (fun a b hab => ?_) (List.pairwise_lt_range _)
    exact (Nat.mul_lt_mul_right hC).mpr hab
  · rw [chunkedDownload, chunkedFetch_concat, List.drop_zero]

end Tiktocker
